import Mathlib

/-!
Verification of the Smart Scan Face attendance system (FastAPI + SQLite).

Shallow embedding of the claim-relevant parts of the repository:

* `face_recognition_service.py` — the matcher `find_matching_student`,
  which scans all enrolled students, compares Euclidean distances of
  128-dimensional face encodings against a fixed tolerance (0.6) and
  returns the best match.
* `database/models.py` — the attendance-log store: `add_attendance_log`,
  `update_checkout_time`, `get_active_checkin`, and the fixed UTC+7
  (Thailand) clock helpers `get_thai_time` / `get_thai_date`.
* `main.py` — the `/api/check-attendance` endpoint `api_check_attendance`.
* `discord_service.py` — the notifier `send_attendance_log`.

Modelling conventions:

* Face encodings are `List ℚ` (the source uses numpy float vectors; the
  matcher only ever compares distances, so exact rational arithmetic is a
  faithful executable stand-in).
* The source compares Euclidean distances (`face_distance <= tolerance`
  and `distance < best_distance`).  The executable embedding compares
  squared distances against the squared tolerance; this is equivalent
  because `Real.sqrt` is monotone, and the bridge is proved in
  `face_distance_le_tol_iff` / `face_distance_le_face_distance_iff`
  below, so the claim statements can speak of the true Euclidean
  distance `face_distance`.
* Timestamps are seconds since the epoch as `Int`.  The store writes
  strings produced with a fixed UTC+7 offset (`get_thai_time`), so a
  stored timestamp is modelled as civil seconds `utc + 7*3600`; SQLite's
  `DATE(...)` on such a string extracts the calendar date, modelled as
  floor-division of civil seconds by 86400 (`civilDate`).  The host's
  local clock `datetime.now()` is modelled as `utc + localOffset` for an
  arbitrary host zone offset.
* File I/O for encodings (`load_face_encoding`) is modelled by giving
  each student an `Option (List ℚ)` field: `none` means the pickle file
  failed to load, exactly the case the loop in the source skips.
* The Discord notifier runs an HTTP post inside `try/except`, returns
  `True` on status 204 and `False` on any failure; it is modelled as a
  pure function of a `NotifierEnv` describing the webhook configuration
  and network behaviour.  The endpoint awaits it and discards the
  result, as in the source.
-/

/-! ## Matcher (`face_recognition_service.py`) -/

/-- One row of the `students` table, with the result of
`load_face_encoding(student['face_encoding_path'])` inlined as
`encoding` (`none` = the encoding file failed to load). -/
structure Student where
  id : Nat
  student_id : Option String
  first_name : Option String
  last_name : Option String
  encoding : Option (List ℚ)
deriving DecidableEq

-- The next three core rational operations are `@[irreducible]` in the
-- library; restoring default reducibility lets concrete runs of the
-- matcher be checked by `decide`.
attribute [local semireducible] Rat.sub Rat.add Rat.mul

/-- `config.FACE_RECOGNITION_TOLERANCE = 0.6`. -/
def FACE_RECOGNITION_TOLERANCE : ℚ := mkRat 6 10

/-- The squared tolerance, used by the executable matcher so that the
source's comparisons of Euclidean distances become comparisons of
rationals (see `face_distance_le_tol_iff`). -/
def TOL_SQ : ℚ := FACE_RECOGNITION_TOLERANCE * FACE_RECOGNITION_TOLERANCE

/-- Sum of squared coordinate differences: the square of the Euclidean
distance `np.linalg.norm(known - unknown)` used by
`face_recognition.face_distance`. -/
def sumSqDiff (a b : List ℚ) : ℚ :=
  ((a.zip b).map fun p => (p.1 - p.2) * (p.1 - p.2)).sum

/-- The Euclidean distance between two encodings, as computed by
`face_recognition.face_distance`. -/
noncomputable def face_distance (a b : List ℚ) : ℝ :=
  Real.sqrt ((sumSqDiff a b : ℚ) : ℝ)

/-- The match test of `compare_faces`: Euclidean distance ≤ tolerance.
Executable form: squared distance ≤ squared tolerance (equivalent by
monotonicity of the square root, lemma `face_distance_le_tol_iff`). -/
def is_match_q (known unknown : List ℚ) : Prop :=
  sumSqDiff known unknown ≤ TOL_SQ

instance (known unknown : List ℚ) : Decidable (is_match_q known unknown) := by
  unfold is_match_q; infer_instance

/-- One iteration of the loop in `find_matching_student`: skip a student
whose encoding failed to load; otherwise keep the candidate iff it
matches (distance ≤ tolerance) and strictly improves the best distance
so far (`best_distance` starts at infinity, modelled by `none`).
Distances are carried squared, which preserves both comparisons. -/
def fms_step (unknown : List ℚ) : Option (Student × ℚ) → Student →
    Option (Student × ℚ)
  | none, s =>
    match s.encoding with
    | none => none
    | some enc =>
        if sumSqDiff enc unknown ≤ TOL_SQ then some (s, sumSqDiff enc unknown)
        else none
  | some (b, bd), s =>
    match s.encoding with
    | none => some (b, bd)
    | some enc =>
        if sumSqDiff enc unknown ≤ TOL_SQ ∧ sumSqDiff enc unknown < bd then
          some (s, sumSqDiff enc unknown)
        else some (b, bd)

/-- `FaceRecognitionService.find_matching_student`: linear scan keeping
the enrolled student with the smallest Euclidean distance among those
within tolerance; `none` when no enrolled encoding is within tolerance. -/
def find_matching_student (unknown : List ℚ) (students : List Student) :
    Option Student :=
  (students.foldl (fms_step unknown) none).map fun p => p.1

/-! ## Store and clock (`database/models.py`) -/

/-- `get_thai_time`: current time rendered with the fixed UTC+7 offset.
Modelled as civil seconds: UTC seconds plus the 7-hour offset. -/
def get_thai_time (nowUtc : Int) : Int := nowUtc + 7 * 3600

/-- `DATE(...)` applied to a stored `"YYYY-MM-DD HH:MM:SS"` string:
the calendar day of a civil-seconds timestamp (floor division). -/
def civilDate (civilSeconds : Int) : Int := Int.ediv civilSeconds 86400

/-- `get_thai_date`: today's date under the fixed UTC+7 offset. -/
def get_thai_date (nowUtc : Int) : Int := civilDate (get_thai_time nowUtc)

/-- A capture file path
`/static/captures/capture_{sid}_{scan_type}_{timestamp}.jpg`, kept as
the record of its three components (the rendering to a string is
injective in them, so nothing observable is lost). -/
structure CapturePath where
  sid : Nat
  scanType : String
  timestamp : Int
deriving DecidableEq

/-- One row of the `attendance_logs` table. -/
structure AttendanceLog where
  id : Nat
  student_id : Nat
  class_name : String
  check_in_time : Int
  check_out_time : Option Int
  face_image_path : Option CapturePath
  status : String
deriving DecidableEq

/-- System state: the `attendance_logs` table plus SQLite's next
autoincrement rowid. -/
structure SysState where
  nextLogId : Nat
  logs : List AttendanceLog
deriving DecidableEq

/-- The WHERE clause of `get_active_checkin`: same student, same class,
check-in on today's Thai date, and no check-out time recorded. -/
def matchesActive (sid : Nat) (cn : String) (today : Int) (r : AttendanceLog) :
    Bool :=
  r.student_id == sid && r.class_name == cn &&
    civilDate r.check_in_time == today && r.check_out_time == none

/-- `ORDER BY check_in_time DESC LIMIT 1` over the filtered rows: keep
the row with the latest check-in time (the first such row on ties). -/
def pickLatest (acc : Option AttendanceLog) (r : AttendanceLog) :
    Option AttendanceLog :=
  match acc with
  | none => some r
  | some b => if b.check_in_time < r.check_in_time then some r else some b

/-- `get_active_checkin`: today's open (not yet checked-out) log row for
a student and class, most recent first. -/
def get_active_checkin (logs : List AttendanceLog) (sid : Nat) (cn : String)
    (nowUtc : Int) : Option AttendanceLog :=
  (logs.filter (matchesActive sid cn (get_thai_date nowUtc))).foldl pickLatest none

/-- `add_attendance_log`: INSERT a new row with status `'checked_in'`
and `check_in_time = get_thai_time()`; returns the new rowid. -/
def add_attendance_log (st : SysState) (sid : Nat) (cn : String)
    (path : Option CapturePath) (nowUtc : Int) : Nat × SysState :=
  (st.nextLogId,
   ⟨st.nextLogId + 1,
    st.logs ++ [⟨st.nextLogId, sid, cn, get_thai_time nowUtc, none, path, "checked_in"⟩]⟩)

/-- `update_checkout_time`: UPDATE the row with the given id, setting
`check_out_time = get_thai_time()` and status `'checked_out'`, and the
captured-image path when one is supplied. -/
def update_checkout_time (logs : List AttendanceLog) (logId : Nat)
    (path : Option CapturePath) (nowUtc : Int) : List AttendanceLog :=
  logs.map fun r =>
    if r.id == logId then
      match path with
      | some p =>
          ⟨r.id, r.student_id, r.class_name, r.check_in_time,
           some (get_thai_time nowUtc), some p, "checked_out"⟩
      | none =>
          ⟨r.id, r.student_id, r.class_name, r.check_in_time,
           some (get_thai_time nowUtc), r.face_image_path, "checked_out"⟩
    else r

/-! ## Encoder collaborator (`face_recognition` library calls) -/

/-- A decoded source image, characterised by what the external face
library reports for it: the detected face locations
(`face_recognition.face_locations`) and the per-face encodings
(`face_recognition.face_encodings`, one per detected face). -/
structure Image where
  faceLocations : List (Int × Int × Int × Int)
  encodings : List (List ℚ)
deriving DecidableEq

/-- `FaceRecognitionService.detect_face`. -/
def detect_face (image : Image) : List (Int × Int × Int × Int) :=
  image.faceLocations

/-- `FaceRecognitionService.get_face_encoding`: `None` when no face is
found, otherwise the encoding of the first detected face. -/
def get_face_encoding (image : Image) : Option (List ℚ) :=
  if image.faceLocations.length == 0 then none
  else image.encodings.head?

/-! ## Notifier (`discord_service.py`) -/

/-- The environment the Discord webhook call runs in. -/
structure NotifierEnv where
  webhookConfigured : Bool
  raisesExc : Bool
  responseStatus : Nat
deriving DecidableEq

/-- `DiscordService.send_attendance_log`: returns `False` when the
webhook URL is not configured, when the HTTP post raises (caught by the
`try/except`), or when the response status is not 204; `True` only on a
204 response. -/
def send_attendance_log (env : NotifierEnv) : Bool :=
  if !env.webhookConfigured then false
  else if env.raisesExc then false
  else env.responseStatus == 204

/-! ## The `/api/check-attendance` endpoint (`main.py`) -/

/-- The error conditions the endpoint raises as `HTTPException`s. -/
inductive ApiError where
  | invalidImage
  | noFaceFound
  | encodingFailed
  | identityNotFound
  | noOpenEntry
  | duplicateEntry
deriving DecidableEq

/-- The claim-relevant fields of the JSON success response: the
`scan_type` label the endpoint reports, the timestamp rendered with
`datetime.now().strftime(...)` (host-local seconds), and the stored
capture-image path.  Display-name fields are omitted. -/
structure AttendanceResponse where
  scan_type : String
  time : Int
  face_image : CapturePath
deriving DecidableEq

/-- Endpoint result: an HTTP error with status code, or a success body. -/
inductive CheckResult where
  | httpError (status : Nat) (kind : ApiError)
  | ok (resp : AttendanceResponse)
deriving DecidableEq

/-- Observable side-effect events, in order of occurrence: the database
commit of the attendance row, then the notifier call (recording the
boolean the discarded webhook call returned). -/
inductive Event where
  | commit (logId : Nat)
  | notify (delivered : Bool)
deriving DecidableEq

/-- Everything a request produces: the HTTP result, the final store
state, and the ordered side-effect trace. -/
structure ApiOutcome where
  result : CheckResult
  state : SysState
  events : List Event
deriving DecidableEq

/-- `save_face_capture`: the capture file path, built from the matched
student's database id, the raw `scan_type` string, and a
`datetime.now()` (host-local) timestamp. -/
def save_face_capture (sid : Nat) (scanType : String) (localNow : Int) :
    CapturePath :=
  ⟨sid, scanType, localNow⟩

/-- The check-out branch of `api_check_attendance`. -/
def checkout_branch (st : SysState) (matched : Student) (cn : String)
    (path : CapturePath) (nowUtc localNow : Int) (env : NotifierEnv) : ApiOutcome :=
  match get_active_checkin st.logs matched.id cn nowUtc with
  | none => ⟨.httpError 400 .noOpenEntry, st, []⟩
  | some active =>
      ⟨.ok ⟨"check_out", localNow, path⟩,
       ⟨st.nextLogId, update_checkout_time st.logs active.id (some path) nowUtc⟩,
       [.commit active.id, .notify (send_attendance_log env)]⟩

/-- The check-in branch of `api_check_attendance`. -/
def checkin_branch (st : SysState) (matched : Student) (cn : String)
    (path : CapturePath) (nowUtc localNow : Int) (env : NotifierEnv) : ApiOutcome :=
  match get_active_checkin st.logs matched.id cn nowUtc with
  | some _ => ⟨.httpError 400 .duplicateEntry, st, []⟩
  | none =>
      let r := add_attendance_log st matched.id cn (some path) nowUtc
      ⟨.ok ⟨"check_in", localNow, path⟩, r.2,
       [.commit r.1, .notify (send_attendance_log env)]⟩

/-- `api_check_attendance`: decode the image (`none` = undecodable),
reject when no face is detected, encode, match against all enrolled
students, save the capture, then run the check-out branch when
`scan_type == "check_out"` and the check-in branch otherwise. -/
def api_check_attendance (students : List Student) (st : SysState)
    (img : Option Image) (cn scanType : String) (nowUtc localOffset : Int)
    (env : NotifierEnv) : ApiOutcome :=
  match img with
  | none => ⟨.httpError 400 .invalidImage, st, []⟩
  | some image =>
    if (detect_face image).length == 0 then ⟨.httpError 400 .noFaceFound, st, []⟩
    else
      match get_face_encoding image with
      | none => ⟨.httpError 400 .encodingFailed, st, []⟩
      | some enc =>
        match find_matching_student enc students with
        | none => ⟨.httpError 404 .identityNotFound, st, []⟩
        | some matched =>
          let localNow := nowUtc + localOffset
          let path := save_face_capture matched.id scanType localNow
          if scanType == "check_out" then
            checkout_branch st matched cn path nowUtc localNow env
          else
            checkin_branch st matched cn path nowUtc localNow env

/-- Variant of the endpoint with the check-out branch removed: every
request is processed as a check-in.  Used to state that unrecognised
`scan_type` values fall through to the check-in path. -/
def api_check_attendance_enter_only (students : List Student) (st : SysState)
    (img : Option Image) (cn scanType : String) (nowUtc localOffset : Int)
    (env : NotifierEnv) : ApiOutcome :=
  match img with
  | none => ⟨.httpError 400 .invalidImage, st, []⟩
  | some image =>
    if (detect_face image).length == 0 then ⟨.httpError 400 .noFaceFound, st, []⟩
    else
      match get_face_encoding image with
      | none => ⟨.httpError 400 .encodingFailed, st, []⟩
      | some enc =>
        match find_matching_student enc students with
        | none => ⟨.httpError 404 .identityNotFound, st, []⟩
        | some matched =>
          let localNow := nowUtc + localOffset
          let path := save_face_capture matched.id scanType localNow
          checkin_branch st matched cn path nowUtc localNow env

/-! ## Matcher lemmas -/

/-- Every element produced by `sumSqDiff`'s map is a square, so the sum
is nonnegative. -/
theorem sumSqDiff_nonneg (a b : List ℚ) : 0 ≤ sumSqDiff a b := by
  unfold sumSqDiff
  apply List.sum_nonneg
  intro x hx
  obtain ⟨p, _, rfl⟩ := List.mem_map.mp hx
  exact mul_self_nonneg _

theorem tolerance_nonneg : (0 : ℚ) ≤ FACE_RECOGNITION_TOLERANCE := by decide

/-- Bridge: the source's comparison `face_distance <= tolerance` is the
executable comparison of the squared distance with `TOL_SQ`. -/
theorem face_distance_le_tol_iff (a b : List ℚ) :
    face_distance a b ≤ ((FACE_RECOGNITION_TOLERANCE : ℚ) : ℝ) ↔
      sumSqDiff a b ≤ TOL_SQ := by
  unfold face_distance
  rw [Real.sqrt_le_left (by exact_mod_cast tolerance_nonneg)]
  rw [show ((FACE_RECOGNITION_TOLERANCE : ℚ) : ℝ) ^ 2 = ((TOL_SQ : ℚ) : ℝ) by
    unfold TOL_SQ; push_cast; ring]
  exact_mod_cast Iff.rfl

/-- Bridge: Euclidean distance is monotone in the squared distance. -/
theorem face_distance_mono (a b u : List ℚ)
    (h : sumSqDiff a u ≤ sumSqDiff b u) :
    face_distance a u ≤ face_distance b u := by
  unfold face_distance
  exact Real.sqrt_le_sqrt (by exact_mod_cast h)

/-- Once the loop holds a best candidate, the best distance never
increases. -/
theorem fms_foldl_best_le (u : List ℚ) :
    ∀ (l : List Student) (b : Student) (bd : ℚ) (b' : Student) (bd' : ℚ),
      l.foldl (fms_step u) (some (b, bd)) = some (b', bd') → bd' ≤ bd := by
  intro l
  induction l with
  | nil =>
    intro b bd b' bd' h
    simp only [List.foldl_nil] at h
    obtain ⟨rfl, rfl⟩ : b = b' ∧ bd = bd' := by
      constructor <;> injection h with h2 <;> cases h2 <;> rfl
    exact le_refl _
  | cons s l ih =>
    intro b bd b' bd' h
    simp only [List.foldl_cons] at h
    rcases hs : s.encoding with _ | enc
    · simp only [fms_step, hs] at h
      exact ih b bd b' bd' h
    · simp only [fms_step, hs] at h
      by_cases hcond : sumSqDiff enc u ≤ TOL_SQ ∧ sumSqDiff enc u < bd
      · rw [if_pos hcond] at h
        exact le_trans (ih s _ b' bd' h) (le_of_lt hcond.2)
      · rw [if_neg hcond] at h
        exact ih b bd b' bd' h

/-- Any winner of the scan is an element of the list (or was already the
accumulator), its stored distance is its own squared distance to the
probe, and that distance is within the squared tolerance. -/
theorem fms_foldl_sound (u : List ℚ) :
    ∀ (l : List Student) (acc : Option (Student × ℚ)) (b : Student) (bd : ℚ),
      l.foldl (fms_step u) acc = some (b, bd) →
      acc = some (b, bd) ∨
        (b ∈ l ∧ ∃ e, b.encoding = some e ∧ bd = sumSqDiff e u ∧ bd ≤ TOL_SQ) := by
  intro l
  induction l with
  | nil =>
    intro acc b bd h
    simp only [List.foldl_nil] at h
    exact Or.inl h
  | cons s l ih =>
    intro acc b bd h
    simp only [List.foldl_cons] at h
    rcases ih _ b bd h with hacc | ⟨hmem, e, he, hbd, htol⟩
    · rcases acc with _ | ⟨a, ad⟩ <;> rcases hs : s.encoding with _ | enc
      · simp only [fms_step, hs] at hacc
        exact Or.inl hacc
      · simp only [fms_step, hs] at hacc
        by_cases hcond : sumSqDiff enc u ≤ TOL_SQ
        · rw [if_pos hcond] at hacc
          simp only [Option.some.injEq, Prod.mk.injEq] at hacc
          obtain ⟨rfl, rfl⟩ := hacc
          exact Or.inr ⟨List.mem_cons_self _ _, enc, hs, rfl, hcond⟩
        · rw [if_neg hcond] at hacc
          exact absurd hacc (by simp)
      · simp only [fms_step, hs] at hacc
        exact Or.inl hacc
      · simp only [fms_step, hs] at hacc
        by_cases hcond : sumSqDiff enc u ≤ TOL_SQ ∧ sumSqDiff enc u < ad
        · rw [if_pos hcond] at hacc
          simp only [Option.some.injEq, Prod.mk.injEq] at hacc
          obtain ⟨rfl, rfl⟩ := hacc
          exact Or.inr ⟨List.mem_cons_self _ _, enc, hs, rfl, hcond.1⟩
        · rw [if_neg hcond] at hacc
          exact Or.inl hacc
    · exact Or.inr ⟨List.mem_cons_of_mem _ hmem, e, he, hbd, htol⟩

/-- The winner's stored distance is a lower bound on the squared
distance of every within-tolerance candidate in the scanned list. -/
theorem fms_foldl_minimal (u : List ℚ) :
    ∀ (l : List Student) (acc : Option (Student × ℚ)) (b : Student) (bd : ℚ),
      l.foldl (fms_step u) acc = some (b, bd) →
      ∀ t ∈ l, ∀ e, t.encoding = some e → sumSqDiff e u ≤ TOL_SQ →
        bd ≤ sumSqDiff e u := by
  intro l
  induction l with
  | nil =>
    intro acc b bd _ t ht
    exact absurd ht (List.not_mem_nil t)
  | cons s l ih =>
    intro acc b bd h t ht e he htol
    simp only [List.foldl_cons] at h
    rcases List.mem_cons.mp ht with rfl | htl
    · rcases acc with _ | ⟨a, ad⟩
      · rw [show fms_step u none t = some (t, sumSqDiff e u) by
          simp only [fms_step, he]; rw [if_pos htol]] at h
        exact fms_foldl_best_le u l t _ b bd h
      · by_cases hlt : sumSqDiff e u < ad
        · rw [show fms_step u (some (a, ad)) t = some (t, sumSqDiff e u) by
            simp only [fms_step, he]; rw [if_pos ⟨htol, hlt⟩]] at h
          exact fms_foldl_best_le u l t _ b bd h
        · rw [show fms_step u (some (a, ad)) t = some (a, ad) by
            simp only [fms_step, he]
            rw [if_neg (by intro hc; exact hlt hc.2)]] at h
          exact le_trans (fms_foldl_best_le u l a ad b bd h) (le_of_not_lt hlt)
    · exact ih _ b bd h t htl e he htol

/-- If no scanned student has a loadable encoding within tolerance, the
scan starting from an empty accumulator yields nothing. -/
theorem fms_foldl_none (u : List ℚ) :
    ∀ (l : List Student),
      (∀ t ∈ l, ∀ e, t.encoding = some e → ¬ sumSqDiff e u ≤ TOL_SQ) →
      l.foldl (fms_step u) none = none := by
  intro l
  induction l with
  | nil => intro _; rfl
  | cons s l ih =>
    intro hall
    simp only [List.foldl_cons]
    rcases hs : s.encoding with _ | enc
    · rw [show fms_step u none s = none by simp only [fms_step, hs]]
      exact ih fun t ht => hall t (List.mem_cons_of_mem _ ht)
    · rw [show fms_step u none s = none by
        simp only [fms_step, hs]
        rw [if_neg (hall s (List.mem_cons_self _ _) enc hs)]]
      exact ih fun t ht => hall t (List.mem_cons_of_mem _ ht)

/-- A student whose encoding failed to load leaves the accumulator
untouched, so deleting it from the list does not change the scan. -/
theorem fms_foldl_skip (u : List ℚ) (pre post : List Student)
    (bad : Student) (hbad : bad.encoding = none)
    (acc : Option (Student × ℚ)) :
    (pre ++ bad :: post).foldl (fms_step u) acc =
      (pre ++ post).foldl (fms_step u) acc := by
  rw [List.foldl_append, List.foldl_append, List.foldl_cons]
  rcases pre.foldl (fms_step u) acc with _ | ⟨a, ad⟩
  · rw [show fms_step u none bad = none by simp only [fms_step, hbad]]
  · rw [show fms_step u (some (a, ad)) bad = some (a, ad) by
      simp only [fms_step, hbad]]

/-! ## Shared concrete scenario -/

/-- Probe encoding used by the concrete scenarios. -/
def demoU : List ℚ := [0]

/-- An enrolled student whose face is far from the probe (distance 1). -/
def demoFar : Student := ⟨2, none, none, none, some [1]⟩

/-- An enrolled student whose encoding file fails to load. -/
def demoBroken : Student := ⟨3, none, none, none, none⟩

/-- An enrolled student whose face matches the probe exactly. -/
def demoGood : Student := ⟨1, some "650001", some "Ada", some "L", some [0]⟩

/-- The roster returned by `get_all_students` in the scenarios. -/
def demoRoster : List Student := [demoFar, demoBroken, demoGood]

/-- C2: `find_matching_student` returns an identity only if that
identity's Euclidean distance to the unknown encoding is within the
tolerance (0.6) and is the minimum distance among all enrolled
identities within tolerance; if no enrolled encoding is within
tolerance it returns none; enrolled entries whose encoding fails to
load are skipped rather than failing the match. -/
theorem find_matching_student_spec (u : List ℚ) (students : List Student) :
    (∀ s, find_matching_student u students = some s →
      ∃ e, s ∈ students ∧ s.encoding = some e ∧
        face_distance e u ≤ ((FACE_RECOGNITION_TOLERANCE : ℚ) : ℝ) ∧
        ∀ t ∈ students, ∀ e2, t.encoding = some e2 →
          face_distance e2 u ≤ ((FACE_RECOGNITION_TOLERANCE : ℚ) : ℝ) →
          face_distance e u ≤ face_distance e2 u) ∧
    ((∀ t ∈ students, ∀ e2, t.encoding = some e2 →
        ¬ face_distance e2 u ≤ ((FACE_RECOGNITION_TOLERANCE : ℚ) : ℝ)) →
      find_matching_student u students = none) ∧
    (∀ pre bad post, students = pre ++ bad :: post → bad.encoding = none →
      find_matching_student u students = find_matching_student u (pre ++ post)) := by
  refine ⟨?_, ?_, ?_⟩
  · intro s hs
    unfold find_matching_student at hs
    rcases hfold : students.foldl (fms_step u) none with _ | ⟨b, bd⟩
    · rw [hfold] at hs
      exact absurd hs (by simp)
    · rw [hfold] at hs
      have hbs : b = s := by simpa using hs
      subst hbs
      rcases fms_foldl_sound u students none b bd hfold with habs |
        ⟨hmem, e, he, hbd, htol⟩
      · exact absurd habs (by simp)
      · refine ⟨e, hmem, he, ?_, ?_⟩
        · rw [face_distance_le_tol_iff]
          rw [← hbd]
          exact htol
        · intro t ht e2 he2 hle2
          rw [face_distance_le_tol_iff] at hle2
          apply face_distance_mono
          rw [← hbd]
          exact fms_foldl_minimal u students none b bd hfold t ht e2 he2 hle2
  · intro hall
    unfold find_matching_student
    rw [fms_foldl_none u students]
    · rfl
    · intro t ht e2 he2 hsq
      exact hall t ht e2 he2 ((face_distance_le_tol_iff e2 u).mpr hsq)
  · intro pre bad post hsplit hbadenc
    unfold find_matching_student
    rw [hsplit, fms_foldl_skip u pre post bad hbadenc]

/-- Witness for C2 on the concrete roster: the matcher picks the exact
match, returns none when only out-of-tolerance or unloadable encodings
remain, and skipping the unloadable entry changes nothing. -/
theorem find_matching_student_spec_witness :
    (∃ e, demoGood ∈ demoRoster ∧ demoGood.encoding = some e ∧
      face_distance e demoU ≤ ((FACE_RECOGNITION_TOLERANCE : ℚ) : ℝ) ∧
      ∀ t ∈ demoRoster, ∀ e2, t.encoding = some e2 →
        face_distance e2 demoU ≤ ((FACE_RECOGNITION_TOLERANCE : ℚ) : ℝ) →
        face_distance e demoU ≤ face_distance e2 demoU) ∧
    find_matching_student demoU [demoFar, demoBroken] = none ∧
    find_matching_student demoU demoRoster =
      find_matching_student demoU [demoFar, demoGood] := by
  refine ⟨(find_matching_student_spec demoU demoRoster).1 demoGood (by decide),
    ?_, ?_⟩
  · apply (find_matching_student_spec demoU [demoFar, demoBroken]).2.1
    intro t ht e2 he2
    rw [face_distance_le_tol_iff]
    rcases List.mem_cons.mp ht with rfl | ht2
    · obtain rfl : [1] = e2 := Option.some.inj he2
      decide
    · rcases List.mem_cons.mp ht2 with rfl | ht3
      · exact absurd he2 (by simp [demoBroken])
      · exact absurd ht3 (List.not_mem_nil t)
  · exact (find_matching_student_spec demoU demoRoster).2.2
      [demoFar] demoBroken [demoGood] rfl rfl

/-! ## Store lemmas -/

/-- Once the latest-row scan holds a row, it never drops it. -/
theorem pickLatest_foldl_ne_none :
    ∀ (l : List AttendanceLog) (b : AttendanceLog),
      l.foldl pickLatest (some b) ≠ none := by
  intro l
  induction l with
  | nil => intro b h; exact absurd h (by simp)
  | cons r l ih =>
    intro b h
    simp only [List.foldl_cons, pickLatest] at h
    by_cases hlt : b.check_in_time < r.check_in_time
    · rw [if_pos hlt] at h
      exact ih r h
    · rw [if_neg hlt] at h
      exact ih b h

/-- The latest-row scan of a list yields `none` exactly on the empty
list. -/
theorem pickLatest_foldl_none_iff (l : List AttendanceLog) :
    l.foldl pickLatest none = none ↔ l = [] := by
  cases l with
  | nil => simp
  | cons r l =>
    simp only [List.foldl_cons, pickLatest]
    exact ⟨fun h => absurd h (pickLatest_foldl_ne_none l r), fun h => by cases h⟩

/-- `get_active_checkin` returns `none` iff no row of the table passes
its WHERE clause. -/
theorem get_active_checkin_eq_none_iff (logs : List AttendanceLog) (sid : Nat)
    (cn : String) (nowUtc : Int) :
    get_active_checkin logs sid cn nowUtc = none ↔
      ∀ r ∈ logs, ¬ matchesActive sid cn (get_thai_date nowUtc) r = true := by
  unfold get_active_checkin
  rw [pickLatest_foldl_none_iff, List.filter_eq_nil_iff]

/-- The row the latest-row scan returns came from the accumulator or the
list. -/
theorem pickLatest_foldl_mem :
    ∀ (l : List AttendanceLog) (acc : Option AttendanceLog) (m : AttendanceLog),
      l.foldl pickLatest acc = some m → acc = some m ∨ m ∈ l := by
  intro l
  induction l with
  | nil =>
    intro acc m h
    exact Or.inl h
  | cons r l ih =>
    intro acc m h
    simp only [List.foldl_cons] at h
    rcases ih _ m h with hstep | hmem
    · rcases acc with _ | b
      · simp only [pickLatest] at hstep
        exact Or.inr (by rw [Option.some.inj hstep]; exact List.mem_cons_self _ _)
      · simp only [pickLatest] at hstep
        by_cases hlt : b.check_in_time < r.check_in_time
        · rw [if_pos hlt] at hstep
          exact Or.inr (by rw [Option.some.inj hstep]; exact List.mem_cons_self _ _)
        · rw [if_neg hlt] at hstep
          exact Or.inl hstep
    · exact Or.inr (List.mem_cons_of_mem _ hmem)

/-- The accumulator's check-in time never exceeds the returned row's. -/
theorem pickLatest_foldl_acc_le :
    ∀ (l : List AttendanceLog) (b m : AttendanceLog),
      l.foldl pickLatest (some b) = some m →
      b.check_in_time ≤ m.check_in_time := by
  intro l
  induction l with
  | nil =>
    intro b m h
    rw [Option.some.inj h]
  | cons r l ih =>
    intro b m h
    simp only [List.foldl_cons, pickLatest] at h
    by_cases hlt : b.check_in_time < r.check_in_time
    · rw [if_pos hlt] at h
      exact le_trans (le_of_lt hlt) (ih r m h)
    · rw [if_neg hlt] at h
      exact ih b m h

/-- Every scanned row's check-in time is bounded by the returned row's:
the scan returns a latest row. -/
theorem pickLatest_foldl_elem_le :
    ∀ (l : List AttendanceLog) (acc : Option AttendanceLog) (m : AttendanceLog),
      l.foldl pickLatest acc = some m →
      ∀ r ∈ l, r.check_in_time ≤ m.check_in_time := by
  intro l
  induction l with
  | nil =>
    intro acc m _ r hr
    exact absurd hr (List.not_mem_nil r)
  | cons x l ih =>
    intro acc m h r hr
    simp only [List.foldl_cons] at h
    rcases List.mem_cons.mp hr with rfl | hrl
    · rcases acc with _ | b
      · simp only [pickLatest] at h
        exact pickLatest_foldl_acc_le l r m h
      · simp only [pickLatest] at h
        by_cases hlt : b.check_in_time < r.check_in_time
        · rw [if_pos hlt] at h
          exact pickLatest_foldl_acc_le l r m h
        · rw [if_neg hlt] at h
          exact le_trans (le_of_not_lt hlt) (pickLatest_foldl_acc_le l b m h)
    · exact ih _ m h r hrl

/-- Specification of `get_active_checkin` on success: the returned row
is a table row passing the WHERE clause, and its check-in time is
maximal among all rows passing the clause (`ORDER BY check_in_time DESC
LIMIT 1`). -/
theorem get_active_checkin_spec (logs : List AttendanceLog) (sid : Nat)
    (cn : String) (nowUtc : Int) (m : AttendanceLog)
    (h : get_active_checkin logs sid cn nowUtc = some m) :
    m ∈ logs ∧ matchesActive sid cn (get_thai_date nowUtc) m = true ∧
      ∀ r ∈ logs, matchesActive sid cn (get_thai_date nowUtc) r = true →
        r.check_in_time ≤ m.check_in_time := by
  unfold get_active_checkin at h
  have hmem : m ∈ logs.filter (matchesActive sid cn (get_thai_date nowUtc)) := by
    rcases pickLatest_foldl_mem _ none m h with habs | hm
    · exact absurd habs (by simp)
    · exact hm
  refine ⟨(List.mem_filter.mp hmem).1, (List.mem_filter.mp hmem).2, ?_⟩
  intro r hr hmatch
  exact pickLatest_foldl_elem_le _ none m h r (List.mem_filter.mpr ⟨hr, hmatch⟩)

/-- A table with a row passing the WHERE clause makes
`get_active_checkin` return a row. -/
theorem get_active_checkin_isSome (logs : List AttendanceLog) (sid : Nat)
    (cn : String) (nowUtc : Int) (r : AttendanceLog) (hr : r ∈ logs)
    (hmatch : matchesActive sid cn (get_thai_date nowUtc) r = true) :
    ∃ m, get_active_checkin logs sid cn nowUtc = some m := by
  rcases hgac : get_active_checkin logs sid cn nowUtc with _ | m
  · exact absurd hmatch
      (((get_active_checkin_eq_none_iff logs sid cn nowUtc).mp hgac) r hr)
  · exact ⟨m, rfl⟩

/-- Appending a row that fails the WHERE clause does not change
`get_active_checkin`. -/
theorem get_active_checkin_append_no_match (logs : List AttendanceLog)
    (sid : Nat) (cn : String) (nowUtc : Int) (x : AttendanceLog)
    (hx : matchesActive sid cn (get_thai_date nowUtc) x = false) :
    get_active_checkin (logs ++ [x]) sid cn nowUtc =
      get_active_checkin logs sid cn nowUtc := by
  unfold get_active_checkin
  rw [List.filter_append]
  rw [show List.filter (matchesActive sid cn (get_thai_date nowUtc)) [x] = [] by
    simp [hx]]
  rw [List.append_nil]

/-! ## Endpoint lemmas -/

/-- When the image decodes, at least one face is detected, an encoding
is produced and the matcher finds a student, the endpoint reduces to the
scan-type dispatch between the two branches. -/
theorem api_check_attendance_dispatch (students : List Student)
    (st : SysState) (image : Image) (cn scanType : String)
    (nowUtc localOffset : Int) (env : NotifierEnv) (enc : List ℚ)
    (matched : Student) (hfaces : image.faceLocations ≠ [])
    (henc : get_face_encoding image = some enc)
    (hmatch : find_matching_student enc students = some matched) :
    api_check_attendance students st (some image) cn scanType nowUtc
        localOffset env =
      if scanType == "check_out" then
        checkout_branch st matched cn
          (save_face_capture matched.id scanType (nowUtc + localOffset))
          nowUtc (nowUtc + localOffset) env
      else
        checkin_branch st matched cn
          (save_face_capture matched.id scanType (nowUtc + localOffset))
          nowUtc (nowUtc + localOffset) env := by
  have hlen : (image.faceLocations.length == 0) = false := by
    simpa using hfaces
  unfold api_check_attendance
  simp only [detect_face, hlen, Bool.false_eq_true, if_false, henc, hmatch]

/-- A decoded webcam frame containing exactly one face whose encoding is
the probe `demoU`. -/
def demoImage : Image := ⟨[(0, 10, 10, 0)], [demoU]⟩

/-- A configured, healthy notifier environment. -/
def demoEnv : NotifierEnv := ⟨true, false, 204⟩

/-- The empty store (fresh database). -/
def demoSt0 : SysState := ⟨1, []⟩

/-- An open (entered, not exited) attendance row for student 1 in class
"Math", checked in at UTC second 0 (Thai civil second 25200). -/
def demoOpenRow : AttendanceLog :=
  ⟨1, 1, "Math", get_thai_time 0, none, none, "checked_in"⟩

/-- A store holding the single open row `demoOpenRow`. -/
def demoStOpen : SysState := ⟨2, [demoOpenRow]⟩

/-- C5: while an open (entered) session exists for the same identity,
class and Thai civil day, a further enter request is rejected with
DuplicateEntry (HTTP 400) and the store is left untouched: no row is
created or modified, and no notification is sent. -/
theorem enter_rejected_while_open (students : List Student) (st : SysState)
    (image : Image) (cn : String) (nowUtc localOffset : Int)
    (env : NotifierEnv) (enc : List ℚ) (matched : Student)
    (r : AttendanceLog) (hfaces : image.faceLocations ≠ [])
    (henc : get_face_encoding image = some enc)
    (hmatch : find_matching_student enc students = some matched)
    (hr : r ∈ st.logs)
    (hopen : matchesActive matched.id cn (get_thai_date nowUtc) r = true) :
    api_check_attendance students st (some image) cn "check_in" nowUtc
        localOffset env =
      ⟨.httpError 400 .duplicateEntry, st, []⟩ := by
  rw [api_check_attendance_dispatch students st image cn "check_in" nowUtc
    localOffset env enc matched hfaces henc hmatch]
  rw [if_neg (by decide)]
  obtain ⟨m, hm⟩ :=
    get_active_checkin_isSome st.logs matched.id cn nowUtc r hr hopen
  unfold checkin_branch
  rw [hm]

/-- Witness for C5: with `demoOpenRow` open, a second check-in the same
Thai day is rejected and the store is unchanged. -/
theorem enter_rejected_while_open_witness :
    api_check_attendance demoRoster demoStOpen (some demoImage) "Math"
        "check_in" 10 0 demoEnv =
      ⟨.httpError 400 .duplicateEntry, demoStOpen, []⟩ :=
  enter_rejected_while_open demoRoster demoStOpen demoImage "Math" 10 0
    demoEnv demoU demoGood demoOpenRow (by decide) (by decide) (by decide)
    (by decide) (by decide)

/-- C6: with no open session for the identity, class and Thai civil day
— no enter happened today, or the day's session is already exited — an
exit request is rejected with NoOpenEntry (HTTP 400) and the store is
left untouched. -/
theorem exit_rejected_without_open (students : List Student) (st : SysState)
    (image : Image) (cn : String) (nowUtc localOffset : Int)
    (env : NotifierEnv) (enc : List ℚ) (matched : Student)
    (hfaces : image.faceLocations ≠ [])
    (henc : get_face_encoding image = some enc)
    (hmatch : find_matching_student enc students = some matched)
    (hnone : ∀ r ∈ st.logs,
      ¬ matchesActive matched.id cn (get_thai_date nowUtc) r = true) :
    api_check_attendance students st (some image) cn "check_out" nowUtc
        localOffset env =
      ⟨.httpError 400 .noOpenEntry, st, []⟩ := by
  rw [api_check_attendance_dispatch students st image cn "check_out" nowUtc
    localOffset env enc matched hfaces henc hmatch]
  rw [if_pos (by decide)]
  unfold checkout_branch
  rw [(get_active_checkin_eq_none_iff st.logs matched.id cn nowUtc).mpr hnone]

/-- Witness for C6: on the empty store, a check-out is rejected with
NoOpenEntry and the store is unchanged. -/
theorem exit_rejected_without_open_witness :
    api_check_attendance demoRoster demoSt0 (some demoImage) "Math"
        "check_out" 10 0 demoEnv =
      ⟨.httpError 400 .noOpenEntry, demoSt0, []⟩ :=
  exit_rejected_without_open demoRoster demoSt0 demoImage "Math" 10 0 demoEnv
    demoU demoGood (by decide) (by decide) (by decide) (by decide)

/-- Shared helper: when no row passes the open-session WHERE clause, a
check-in succeeds, appends exactly one new `checked_in` row stamped with
the Thai time, commits it, then notifies. -/
theorem checkin_success_aux (students : List Student) (st : SysState)
    (image : Image) (cn : String) (nowUtc localOffset : Int)
    (env : NotifierEnv) (enc : List ℚ) (matched : Student)
    (hfaces : image.faceLocations ≠ [])
    (henc : get_face_encoding image = some enc)
    (hmatch : find_matching_student enc students = some matched)
    (hnone : ∀ r ∈ st.logs,
      ¬ matchesActive matched.id cn (get_thai_date nowUtc) r = true) :
    api_check_attendance students st (some image) cn "check_in" nowUtc
        localOffset env =
      ⟨.ok ⟨"check_in", nowUtc + localOffset,
          save_face_capture matched.id "check_in" (nowUtc + localOffset)⟩,
       ⟨st.nextLogId + 1, st.logs ++
         [⟨st.nextLogId, matched.id, cn, get_thai_time nowUtc, none,
           some (save_face_capture matched.id "check_in" (nowUtc + localOffset)),
           "checked_in"⟩]⟩,
       [.commit st.nextLogId, .notify (send_attendance_log env)]⟩ := by
  rw [api_check_attendance_dispatch students st image cn "check_in" nowUtc
    localOffset env enc matched hfaces henc hmatch]
  rw [if_neg (by decide)]
  unfold checkin_branch
  rw [(get_active_checkin_eq_none_iff st.logs matched.id cn nowUtc).mpr hnone]
  rfl

/-- C7: with an open session for the identity, class and Thai civil day,
an exit request succeeds: `get_active_checkin` selects the most recently
created open entered row for the key today, the endpoint stamps it with
the Thai exit timestamp and the captured image, its status becomes
`checked_out`, and the exit timestamp is ≥ the entry timestamp (given
the entry was recorded no later than now). -/
theorem exit_succeeds_when_open (students : List Student) (st : SysState)
    (image : Image) (cn : String) (nowUtc localOffset : Int)
    (env : NotifierEnv) (enc : List ℚ) (matched : Student) (r : AttendanceLog)
    (hfaces : image.faceLocations ≠ [])
    (henc : get_face_encoding image = some enc)
    (hmatch : find_matching_student enc students = some matched)
    (hgac : get_active_checkin st.logs matched.id cn nowUtc = some r)
    (hmono : r.check_in_time ≤ get_thai_time nowUtc) :
    r ∈ st.logs ∧
    matchesActive matched.id cn (get_thai_date nowUtc) r = true ∧
    (∀ q ∈ st.logs, matchesActive matched.id cn (get_thai_date nowUtc) q = true →
      q.check_in_time ≤ r.check_in_time) ∧
    api_check_attendance students st (some image) cn "check_out" nowUtc
        localOffset env =
      ⟨.ok ⟨"check_out", nowUtc + localOffset,
          save_face_capture matched.id "check_out" (nowUtc + localOffset)⟩,
       ⟨st.nextLogId, update_checkout_time st.logs r.id
         (some (save_face_capture matched.id "check_out" (nowUtc + localOffset)))
         nowUtc⟩,
       [.commit r.id, .notify (send_attendance_log env)]⟩ ∧
    (⟨r.id, r.student_id, r.class_name, r.check_in_time,
      some (get_thai_time nowUtc),
      some (save_face_capture matched.id "check_out" (nowUtc + localOffset)),
      "checked_out"⟩ : AttendanceLog) ∈
      update_checkout_time st.logs r.id
        (some (save_face_capture matched.id "check_out" (nowUtc + localOffset)))
        nowUtc ∧
    r.check_in_time ≤ get_thai_time nowUtc := by
  obtain ⟨hrmem, hrmatch, hrmax⟩ :=
    get_active_checkin_spec st.logs matched.id cn nowUtc r hgac
  refine ⟨hrmem, hrmatch, hrmax, ?_, ?_, hmono⟩
  · rw [api_check_attendance_dispatch students st image cn "check_out" nowUtc
      localOffset env enc matched hfaces henc hmatch]
    rw [if_pos (by decide)]
    unfold checkout_branch
    rw [hgac]
  · unfold update_checkout_time
    refine List.mem_map.mpr ⟨r, hrmem, ?_⟩
    simp

/-- Witness for C7: checking out of the open `demoOpenRow` session
succeeds, stamps Thai time 25210, and exit ≥ entry. -/
theorem exit_succeeds_when_open_witness :
    demoOpenRow ∈ demoStOpen.logs ∧
    matchesActive demoGood.id "Math" (get_thai_date 10) demoOpenRow = true ∧
    (∀ q ∈ demoStOpen.logs,
      matchesActive demoGood.id "Math" (get_thai_date 10) q = true →
      q.check_in_time ≤ demoOpenRow.check_in_time) ∧
    api_check_attendance demoRoster demoStOpen (some demoImage) "Math"
        "check_out" 10 0 demoEnv =
      ⟨.ok ⟨"check_out", 10 + 0,
          save_face_capture demoGood.id "check_out" (10 + 0)⟩,
       ⟨demoStOpen.nextLogId, update_checkout_time demoStOpen.logs
         demoOpenRow.id
         (some (save_face_capture demoGood.id "check_out" (10 + 0))) 10⟩,
       [.commit demoOpenRow.id, .notify (send_attendance_log demoEnv)]⟩ ∧
    (⟨demoOpenRow.id, demoOpenRow.student_id, demoOpenRow.class_name,
      demoOpenRow.check_in_time, some (get_thai_time 10),
      some (save_face_capture demoGood.id "check_out" (10 + 0)),
      "checked_out"⟩ : AttendanceLog) ∈
      update_checkout_time demoStOpen.logs demoOpenRow.id
        (some (save_face_capture demoGood.id "check_out" (10 + 0))) 10 ∧
    demoOpenRow.check_in_time ≤ get_thai_time 10 :=
  exit_succeeds_when_open demoRoster demoStOpen demoImage "Math" 10 0 demoEnv
    demoU demoGood demoOpenRow (by decide) (by decide) (by decide) (by decide)
    (by decide)

/-- C8: two check-ins for the same identity and class whose request
times fall on two different Thai civil days both succeed and append two
independent rows; the first day's row stays open (no check-out time) and
does not block the second day's check-in. -/
theorem different_days_both_enter (students : List Student) (st : SysState)
    (image : Image) (cn : String) (t0 t1 off0 off1 : Int) (env : NotifierEnv)
    (enc : List ℚ) (matched : Student)
    (hfaces : image.faceLocations ≠ [])
    (henc : get_face_encoding image = some enc)
    (hmatch : find_matching_student enc students = some matched)
    (hday : get_thai_date t0 ≠ get_thai_date t1)
    (h0 : ∀ r ∈ st.logs,
      ¬ matchesActive matched.id cn (get_thai_date t0) r = true)
    (h1 : ∀ r ∈ st.logs,
      ¬ matchesActive matched.id cn (get_thai_date t1) r = true) :
    api_check_attendance students st (some image) cn "check_in" t0 off0 env =
      ⟨.ok ⟨"check_in", t0 + off0,
          save_face_capture matched.id "check_in" (t0 + off0)⟩,
       ⟨st.nextLogId + 1, st.logs ++
         [⟨st.nextLogId, matched.id, cn, get_thai_time t0, none,
           some (save_face_capture matched.id "check_in" (t0 + off0)),
           "checked_in"⟩]⟩,
       [.commit st.nextLogId, .notify (send_attendance_log env)]⟩ ∧
    api_check_attendance students
        ⟨st.nextLogId + 1, st.logs ++
          [⟨st.nextLogId, matched.id, cn, get_thai_time t0, none,
            some (save_face_capture matched.id "check_in" (t0 + off0)),
            "checked_in"⟩]⟩
        (some image) cn "check_in" t1 off1 env =
      ⟨.ok ⟨"check_in", t1 + off1,
          save_face_capture matched.id "check_in" (t1 + off1)⟩,
       ⟨st.nextLogId + 1 + 1, st.logs ++
         [⟨st.nextLogId, matched.id, cn, get_thai_time t0, none,
           some (save_face_capture matched.id "check_in" (t0 + off0)),
           "checked_in"⟩] ++
         [⟨st.nextLogId + 1, matched.id, cn, get_thai_time t1, none,
           some (save_face_capture matched.id "check_in" (t1 + off1)),
           "checked_in"⟩]⟩,
       [.commit (st.nextLogId + 1), .notify (send_attendance_log env)]⟩ ∧
    (⟨st.nextLogId, matched.id, cn, get_thai_time t0, none,
      some (save_face_capture matched.id "check_in" (t0 + off0)),
      "checked_in"⟩ : AttendanceLog).check_out_time = none := by
  have hrow0 : matchesActive matched.id cn (get_thai_date t1)
      ⟨st.nextLogId, matched.id, cn, get_thai_time t0, none,
        some (save_face_capture matched.id "check_in" (t0 + off0)),
        "checked_in"⟩ = false := by
    simp only [matchesActive]
    have : (civilDate (get_thai_time t0) == get_thai_date t1) = false := by
      simpa using hday
    simp [this]
  refine ⟨checkin_success_aux students st image cn t0 off0 env enc matched
    hfaces henc hmatch h0, ?_, rfl⟩
  have happend := checkin_success_aux students
    ⟨st.nextLogId + 1, st.logs ++
      [⟨st.nextLogId, matched.id, cn, get_thai_time t0, none,
        some (save_face_capture matched.id "check_in" (t0 + off0)),
        "checked_in"⟩]⟩
    image cn t1 off1 env enc matched hfaces henc hmatch ?_
  · rw [happend]
  · intro r hr
    rcases List.mem_append.mp hr with hrl | hrx
    · exact h1 r hrl
    · rcases List.mem_cons.mp hrx with rfl | habs
      · rw [hrow0]
        simp
      · exact absurd habs (List.not_mem_nil r)

/-- Witness for C8: check-ins at UTC 0 and UTC 86400 (different Thai
days) both succeed from the empty store, leaving two rows, the first
still open. -/
theorem different_days_both_enter_witness :
    api_check_attendance demoRoster demoSt0 (some demoImage) "Math"
        "check_in" 0 0 demoEnv =
      ⟨.ok ⟨"check_in", 0 + 0,
          save_face_capture demoGood.id "check_in" (0 + 0)⟩,
       ⟨demoSt0.nextLogId + 1, demoSt0.logs ++
         [⟨demoSt0.nextLogId, demoGood.id, "Math", get_thai_time 0, none,
           some (save_face_capture demoGood.id "check_in" (0 + 0)),
           "checked_in"⟩]⟩,
       [.commit demoSt0.nextLogId, .notify (send_attendance_log demoEnv)]⟩ ∧
    api_check_attendance demoRoster
        ⟨demoSt0.nextLogId + 1, demoSt0.logs ++
          [⟨demoSt0.nextLogId, demoGood.id, "Math", get_thai_time 0, none,
            some (save_face_capture demoGood.id "check_in" (0 + 0)),
            "checked_in"⟩]⟩
        (some demoImage) "Math" "check_in" 86400 0 demoEnv =
      ⟨.ok ⟨"check_in", 86400 + 0,
          save_face_capture demoGood.id "check_in" (86400 + 0)⟩,
       ⟨demoSt0.nextLogId + 1 + 1, demoSt0.logs ++
         [⟨demoSt0.nextLogId, demoGood.id, "Math", get_thai_time 0, none,
           some (save_face_capture demoGood.id "check_in" (0 + 0)),
           "checked_in"⟩] ++
         [⟨demoSt0.nextLogId + 1, demoGood.id, "Math", get_thai_time 86400,
           none,
           some (save_face_capture demoGood.id "check_in" (86400 + 0)),
           "checked_in"⟩]⟩,
       [.commit (demoSt0.nextLogId + 1),
        .notify (send_attendance_log demoEnv)]⟩ ∧
    (⟨demoSt0.nextLogId, demoGood.id, "Math", get_thai_time 0, none,
      some (save_face_capture demoGood.id "check_in" (0 + 0)),
      "checked_in"⟩ : AttendanceLog).check_out_time = none :=
  different_days_both_enter demoRoster demoSt0 demoImage "Math" 0 86400 0 0
    demoEnv demoU demoGood (by decide) (by decide) (by decide) (by decide)
    (by decide) (by decide)

/-- C10: every `scan_type` other than the exact string `"check_out"` —
including the default `"check_in"` and any unrecognised value — is
processed by the check-in path; no scan-type value is ever rejected as
invalid (the endpoint with the check-out branch removed behaves
identically). -/
theorem unknown_scan_type_is_checkin (students : List Student) (st : SysState)
    (img : Option Image) (cn scanType : String) (nowUtc localOffset : Int)
    (env : NotifierEnv) (hscan : scanType ≠ "check_out") :
    api_check_attendance students st img cn scanType nowUtc localOffset env =
      api_check_attendance_enter_only students st img cn scanType nowUtc
        localOffset env := by
  have hbeq : (scanType == "check_out") = false := beq_eq_false_iff_ne.mpr hscan
  unfold api_check_attendance api_check_attendance_enter_only
  rcases img with _ | image
  · rfl
  · simp only [hbeq, Bool.false_eq_true, if_false]

/-- Witness for C10: a request with `scan_type = "lunch-break"` runs the
check-in path. -/
theorem unknown_scan_type_is_checkin_witness :
    api_check_attendance demoRoster demoSt0 (some demoImage) "Math"
        "lunch-break" 0 0 demoEnv =
      api_check_attendance_enter_only demoRoster demoSt0 (some demoImage)
        "Math" "lunch-break" 0 0 demoEnv :=
  unknown_scan_type_is_checkin demoRoster demoSt0 (some demoImage) "Math"
    "lunch-break" 0 0 demoEnv (by decide)

/-- A notifier environment whose webhook post raises an exception. -/
def demoEnvFail : NotifierEnv := ⟨true, true, 0⟩

/-- C9: the HTTP result and the final store state of a request are
completely independent of the notifier environment (so a notifier
exception or non-204 response never fails the request nor rolls back the
committed row), and on every success the database commit event strictly
precedes the notifier call in the side-effect trace. -/
theorem commit_before_notify_failure_ignored (students : List Student)
    (st : SysState) (img : Option Image) (cn scanType : String)
    (nowUtc localOffset : Int) (env env2 : NotifierEnv) :
    (api_check_attendance students st img cn scanType nowUtc localOffset
        env).result =
      (api_check_attendance students st img cn scanType nowUtc localOffset
        env2).result ∧
    (api_check_attendance students st img cn scanType nowUtc localOffset
        env).state =
      (api_check_attendance students st img cn scanType nowUtc localOffset
        env2).state ∧
    (∀ resp, (api_check_attendance students st img cn scanType nowUtc
        localOffset env).result = .ok resp →
      ∃ i, (api_check_attendance students st img cn scanType nowUtc
          localOffset env).events =
        [.commit i, .notify (send_attendance_log env)]) := by
  rcases img with _ | image
  · exact ⟨rfl, rfl, fun resp h =>
      absurd h (by simp [api_check_attendance])⟩
  · by_cases hlen : ((detect_face image).length == 0) = true
    · have hred : ∀ e : NotifierEnv,
        api_check_attendance students st (some image) cn scanType nowUtc
          localOffset e = ⟨.httpError 400 .noFaceFound, st, []⟩ := by
        intro e
        simp only [api_check_attendance, hlen, if_true]
      rw [hred env, hred env2]
      exact ⟨rfl, rfl, fun resp h => absurd h (by simp)⟩
    · have hlen' : ((detect_face image).length == 0) = false := by
        simpa using hlen
      have hfaces : image.faceLocations ≠ [] := by
        intro hnil
        rw [show detect_face image = image.faceLocations from rfl, hnil] at hlen'
        simp at hlen'
      rcases henc : get_face_encoding image with _ | enc
      · have hred : ∀ e : NotifierEnv,
          api_check_attendance students st (some image) cn scanType nowUtc
            localOffset e = ⟨.httpError 400 .encodingFailed, st, []⟩ := by
          intro e
          simp only [api_check_attendance, hlen', Bool.false_eq_true,
            if_false, henc]
        rw [hred env, hred env2]
        exact ⟨rfl, rfl, fun resp h => absurd h (by simp)⟩
      · rcases hmatch : find_matching_student enc students with _ | matched
        · have hred : ∀ e : NotifierEnv,
            api_check_attendance students st (some image) cn scanType nowUtc
              localOffset e = ⟨.httpError 404 .identityNotFound, st, []⟩ := by
            intro e
            simp only [api_check_attendance, hlen', Bool.false_eq_true,
              if_false, henc, hmatch]
          rw [hred env, hred env2]
          exact ⟨rfl, rfl, fun resp h => absurd h (by simp)⟩
        · rw [api_check_attendance_dispatch students st image cn scanType
            nowUtc localOffset env enc matched hfaces henc hmatch,
            api_check_attendance_dispatch students st image cn scanType
            nowUtc localOffset env2 enc matched hfaces henc hmatch]
          by_cases hscan : (scanType == "check_out") = true
          · rw [if_pos hscan, if_pos hscan]
            unfold checkout_branch
            rcases hgac : get_active_checkin st.logs matched.id cn nowUtc
              with _ | m
            · exact ⟨rfl, rfl, fun resp h => absurd h (by simp)⟩
            · exact ⟨rfl, rfl, fun resp h => ⟨m.id, rfl⟩⟩
          · rw [if_neg hscan, if_neg hscan]
            unfold checkin_branch
            rcases hgac : get_active_checkin st.logs matched.id cn nowUtc
              with _ | m
            · exact ⟨rfl, rfl, fun resp h => ⟨st.nextLogId, rfl⟩⟩
            · exact ⟨rfl, rfl, fun resp h => absurd h (by simp)⟩

/-- Witness for C9: a successful check-in gives the same result and
state under a healthy notifier and under one whose post raises, and its
trace is the commit followed by the (failed) notification. -/
theorem commit_before_notify_failure_ignored_witness :
    (api_check_attendance demoRoster demoSt0 (some demoImage) "Math"
        "check_in" 0 0 demoEnv).result =
      (api_check_attendance demoRoster demoSt0 (some demoImage) "Math"
        "check_in" 0 0 demoEnvFail).result ∧
    (api_check_attendance demoRoster demoSt0 (some demoImage) "Math"
        "check_in" 0 0 demoEnv).state =
      (api_check_attendance demoRoster demoSt0 (some demoImage) "Math"
        "check_in" 0 0 demoEnvFail).state ∧
    (∃ i, (api_check_attendance demoRoster demoSt0 (some demoImage) "Math"
        "check_in" 0 0 demoEnv).events =
      [.commit i, .notify (send_attendance_log demoEnv)]) :=
  ⟨(commit_before_notify_failure_ignored demoRoster demoSt0 (some demoImage)
      "Math" "check_in" 0 0 demoEnv demoEnvFail).1,
   (commit_before_notify_failure_ignored demoRoster demoSt0 (some demoImage)
      "Math" "check_in" 0 0 demoEnv demoEnvFail).2.1,
   (commit_before_notify_failure_ignored demoRoster demoSt0 (some demoImage)
      "Math" "check_in" 0 0 demoEnv demoEnvFail).2.2
     ⟨"check_in", 0 + 0, save_face_capture demoGood.id "check_in" (0 + 0)⟩
     (by decide)⟩

/-- A decoded webcam frame in which the library detects two faces; the
first face's encoding is the probe `demoU`. -/
def demoImage2 : Image := ⟨[(0, 10, 10, 0), (20, 30, 30, 20)], [demoU, [1]]⟩

/-- A decoded webcam frame with no detectable face. -/
def demoImageNoFace : Image := ⟨[], []⟩

/-- Counterexample to C4 as stated: an attendance request whose image
contains two faces is not rejected — the endpoint matches the first
face, creates a session row and reports success. -/
theorem multi_face_request_not_rejected :
    demoImage2.faceLocations.length = 2 ∧
    api_check_attendance demoRoster demoSt0 (some demoImage2) "Math"
        "check_in" 0 0 demoEnv =
      ⟨.ok ⟨"check_in", 0, ⟨1, "check_in", 0⟩⟩,
       ⟨2, [⟨1, 1, "Math", 25200, none, some ⟨1, "check_in", 0⟩,
         "checked_in"⟩]⟩,
       [.commit 1, .notify true]⟩ := by
  decide

/-- C4 amended: a zero-face image is rejected (HTTP 400, no matching, no
state change, no notification); a multi-face image is *not* rejected at
the attendance endpoint — the request behaves exactly as if only the
first detected face were present, so matching and the state transition
proceed on the first face.  (Only the registration endpoints reject
multi-face images.) -/
theorem face_count_behavior (students : List Student) (st : SysState)
    (image : Image) (cn scanType : String) (nowUtc localOffset : Int)
    (env : NotifierEnv) :
    (image.faceLocations = [] →
      api_check_attendance students st (some image) cn scanType nowUtc
          localOffset env =
        ⟨.httpError 400 .noFaceFound, st, []⟩) ∧
    (image.faceLocations ≠ [] →
      api_check_attendance students st (some image) cn scanType nowUtc
          localOffset env =
        api_check_attendance students st
          (some ⟨image.faceLocations.take 1, image.encodings.take 1⟩) cn
          scanType nowUtc localOffset env) := by
  constructor
  · intro hnil
    unfold api_check_attendance
    simp [detect_face, hnil]
  · intro hne
    have hlenF : (image.faceLocations.length == 0) = false := by
      simpa using hne
    have h1 : ((image.faceLocations.take 1).length == 0) = false := by
      cases himg : image.faceLocations with
      | nil => exact absurd himg hne
      | cons x xs => rfl
    have hhead : (image.encodings.take 1).head? = image.encodings.head? := by
      cases image.encodings <;> rfl
    simp only [api_check_attendance, detect_face, get_face_encoding, h1,
      hlenF, Bool.false_eq_true, if_false, hhead]

/-- Witness for the amended C4: a zero-face frame is rejected with the
store untouched, and the two-face frame behaves exactly like its
first-face truncation. -/
theorem face_count_behavior_witness :
    api_check_attendance demoRoster demoSt0 (some demoImageNoFace) "Math"
        "check_in" 0 0 demoEnv =
      ⟨.httpError 400 .noFaceFound, demoSt0, []⟩ ∧
    api_check_attendance demoRoster demoSt0 (some demoImage2) "Math"
        "check_in" 0 0 demoEnv =
      api_check_attendance demoRoster demoSt0
        (some ⟨demoImage2.faceLocations.take 1, demoImage2.encodings.take 1⟩)
        "Math" "check_in" 0 0 demoEnv :=
  ⟨(face_count_behavior demoRoster demoSt0 demoImageNoFace "Math" "check_in"
      0 0 demoEnv).1 (by decide),
   (face_count_behavior demoRoster demoSt0 demoImage2 "Math" "check_in"
      0 0 demoEnv).2 (by decide)⟩

/-- Shared helper: with an open session found, a check-out succeeds and
the endpoint returns the updated store and the commit/notify trace. -/
theorem checkout_success_aux (students : List Student) (st : SysState)
    (image : Image) (cn : String) (nowUtc localOffset : Int)
    (env : NotifierEnv) (enc : List ℚ) (matched : Student) (r : AttendanceLog)
    (hfaces : image.faceLocations ≠ [])
    (henc : get_face_encoding image = some enc)
    (hmatch : find_matching_student enc students = some matched)
    (hgac : get_active_checkin st.logs matched.id cn nowUtc = some r) :
    api_check_attendance students st (some image) cn "check_out" nowUtc
        localOffset env =
      ⟨.ok ⟨"check_out", nowUtc + localOffset,
          save_face_capture matched.id "check_out" (nowUtc + localOffset)⟩,
       ⟨st.nextLogId, update_checkout_time st.logs r.id
         (some (save_face_capture matched.id "check_out" (nowUtc + localOffset)))
         nowUtc⟩,
       [.commit r.id, .notify (send_attendance_log env)]⟩ := by
  rw [api_check_attendance_dispatch students st image cn "check_out" nowUtc
    localOffset env enc matched hfaces henc hmatch]
  rw [if_pos (by decide)]
  unfold checkout_branch
  rw [hgac]

/-- Counterexample to C3 as stated: the check-in time the endpoint
reports in its JSON response is the host-local clock (here a host at
UTC, local offset 0, reports second 0), not the fixed UTC+7 civil time
25200 that is stored.  With a host at offset +3600 the same request
reports 3600: the reported timestamp follows the machine zone. -/
theorem reported_time_is_host_local :
    api_check_attendance demoRoster demoSt0 (some demoImage) "Math"
        "check_in" 0 0 demoEnv =
      ⟨.ok ⟨"check_in", 0, ⟨1, "check_in", 0⟩⟩,
       ⟨2, [⟨1, 1, "Math", 25200, none, some ⟨1, "check_in", 0⟩,
         "checked_in"⟩]⟩,
       [.commit 1, .notify true]⟩ ∧
    (0 : Int) ≠ get_thai_time 0 ∧
    (api_check_attendance demoRoster demoSt0 (some demoImage) "Math"
        "check_in" 0 3600 demoEnv).result =
      .ok ⟨"check_in", 3600, ⟨1, "check_in", 3600⟩⟩ := by
  decide

/-- C3 amended: every timestamp *stored* by the endpoint — the session
check-in time, the check-out time, and the calendar-day boundary used to
find today's open session — is computed with the fixed UTC+7 offset,
independent of the host's zone; but the timestamps *reported* in the
JSON response body are computed from the host-local clock
(`datetime.now()`), not UTC+7. -/
theorem stored_thai_reported_local (students : List Student) (st : SysState)
    (image : Image) (cn : String) (nowUtc localOffset : Int)
    (env : NotifierEnv) (enc : List ℚ) (matched : Student)
    (hfaces : image.faceLocations ≠ [])
    (henc : get_face_encoding image = some enc)
    (hmatch : find_matching_student enc students = some matched) :
    ((∀ r ∈ st.logs,
        ¬ matchesActive matched.id cn (get_thai_date nowUtc) r = true) →
      api_check_attendance students st (some image) cn "check_in" nowUtc
          localOffset env =
        ⟨.ok ⟨"check_in", nowUtc + localOffset,
            save_face_capture matched.id "check_in" (nowUtc + localOffset)⟩,
         ⟨st.nextLogId + 1, st.logs ++
           [⟨st.nextLogId, matched.id, cn, get_thai_time nowUtc, none,
             some (save_face_capture matched.id "check_in"
               (nowUtc + localOffset)), "checked_in"⟩]⟩,
         [.commit st.nextLogId, .notify (send_attendance_log env)]⟩) ∧
    (∀ r, get_active_checkin st.logs matched.id cn nowUtc = some r →
      api_check_attendance students st (some image) cn "check_out" nowUtc
          localOffset env =
        ⟨.ok ⟨"check_out", nowUtc + localOffset,
            save_face_capture matched.id "check_out" (nowUtc + localOffset)⟩,
         ⟨st.nextLogId, update_checkout_time st.logs r.id
           (some (save_face_capture matched.id "check_out"
             (nowUtc + localOffset))) nowUtc⟩,
         [.commit r.id, .notify (send_attendance_log env)]⟩ ∧
      (⟨r.id, r.student_id, r.class_name, r.check_in_time,
        some (get_thai_time nowUtc),
        some (save_face_capture matched.id "check_out" (nowUtc + localOffset)),
        "checked_out"⟩ : AttendanceLog) ∈
        update_checkout_time st.logs r.id
          (some (save_face_capture matched.id "check_out"
            (nowUtc + localOffset))) nowUtc) := by
  constructor
  · intro hnone
    exact checkin_success_aux students st image cn nowUtc localOffset env enc
      matched hfaces henc hmatch hnone
  · intro r hgac
    refine ⟨checkout_success_aux students st image cn nowUtc localOffset env
      enc matched r hfaces henc hmatch hgac, ?_⟩
    obtain ⟨hrmem, _, _⟩ :=
      get_active_checkin_spec st.logs matched.id cn nowUtc r hgac
    unfold update_checkout_time
    refine List.mem_map.mpr ⟨r, hrmem, ?_⟩
    simp

/-- Witness for the amended C3: on the open-session store, the check-out
stores Thai time 25210 while the response reports host-local second 10;
on the fresh store, the check-in stores 25200 and reports 0. -/
theorem stored_thai_reported_local_witness :
    (api_check_attendance demoRoster demoSt0 (some demoImage) "Math"
        "check_in" 0 0 demoEnv =
      ⟨.ok ⟨"check_in", 0 + 0,
          save_face_capture demoGood.id "check_in" (0 + 0)⟩,
       ⟨demoSt0.nextLogId + 1, demoSt0.logs ++
         [⟨demoSt0.nextLogId, demoGood.id, "Math", get_thai_time 0, none,
           some (save_face_capture demoGood.id "check_in" (0 + 0)),
           "checked_in"⟩]⟩,
       [.commit demoSt0.nextLogId, .notify (send_attendance_log demoEnv)]⟩) ∧
    (api_check_attendance demoRoster demoStOpen (some demoImage) "Math"
        "check_out" 10 0 demoEnv =
      ⟨.ok ⟨"check_out", 10 + 0,
          save_face_capture demoGood.id "check_out" (10 + 0)⟩,
       ⟨demoStOpen.nextLogId, update_checkout_time demoStOpen.logs
         demoOpenRow.id
         (some (save_face_capture demoGood.id "check_out" (10 + 0))) 10⟩,
       [.commit demoOpenRow.id, .notify (send_attendance_log demoEnv)]⟩ ∧
     (⟨demoOpenRow.id, demoOpenRow.student_id, demoOpenRow.class_name,
       demoOpenRow.check_in_time, some (get_thai_time 10),
       some (save_face_capture demoGood.id "check_out" (10 + 0)),
       "checked_out"⟩ : AttendanceLog) ∈
       update_checkout_time demoStOpen.logs demoOpenRow.id
         (some (save_face_capture demoGood.id "check_out" (10 + 0))) 10) :=
  ⟨(stored_thai_reported_local demoRoster demoSt0 demoImage "Math" 0 0
      demoEnv demoU demoGood (by decide) (by decide) (by decide)).1
      (by decide),
   (stored_thai_reported_local demoRoster demoStOpen demoImage "Math" 10 0
      demoEnv demoU demoGood (by decide) (by decide) (by decide)).2
      demoOpenRow (by decide)⟩

/-- Counterexample to C1 as stated: a successful enter (UTC 0), a
successful exit (UTC 10), and then a *second enter on the same Thai
civil day* (UTC 20): the second enter is accepted — not rejected — and a
second AttendanceSession row is created for the same key. -/
theorem second_enter_after_exit_accepted :
    (api_check_attendance demoRoster demoSt0 (some demoImage) "Math"
        "check_in" 0 0 demoEnv).result =
      .ok ⟨"check_in", 0, ⟨1, "check_in", 0⟩⟩ ∧
    (api_check_attendance demoRoster
        (api_check_attendance demoRoster demoSt0 (some demoImage) "Math"
          "check_in" 0 0 demoEnv).state
        (some demoImage) "Math" "check_out" 10 0 demoEnv).result =
      .ok ⟨"check_out", 10, ⟨1, "check_out", 10⟩⟩ ∧
    api_check_attendance demoRoster
        (api_check_attendance demoRoster
          (api_check_attendance demoRoster demoSt0 (some demoImage) "Math"
            "check_in" 0 0 demoEnv).state
          (some demoImage) "Math" "check_out" 10 0 demoEnv).state
        (some demoImage) "Math" "check_in" 20 0 demoEnv =
      ⟨.ok ⟨"check_in", 20, ⟨1, "check_in", 20⟩⟩,
       ⟨3, [⟨1, 1, "Math", 25200, some 25210, some ⟨1, "check_out", 10⟩,
             "checked_out"⟩,
            ⟨2, 1, "Math", 25220, none, some ⟨1, "check_in", 20⟩,
             "checked_in"⟩]⟩,
       [.commit 2, .notify true]⟩ ∧
    get_thai_date 0 = get_thai_date 20 := by
  decide

/-- C1 amended: `Exited` is *not* terminal.  When every session for the
(identity, class, Thai day) key has already been exited (check-out time
recorded), a further enter request on the same civil day is accepted and
creates a second AttendanceSession row for that key — the open-entry
lookup only considers rows with no check-out time. -/
theorem enter_after_exit_creates_second_row (students : List Student)
    (st : SysState) (image : Image) (cn : String)
    (nowUtc localOffset : Int) (env : NotifierEnv) (enc : List ℚ)
    (matched : Student) (hfaces : image.faceLocations ≠ [])
    (henc : get_face_encoding image = some enc)
    (hmatch : find_matching_student enc students = some matched)
    (hexited : ∀ r ∈ st.logs, r.student_id = matched.id → r.class_name = cn →
      civilDate r.check_in_time = get_thai_date nowUtc →
      r.check_out_time ≠ none) :
    api_check_attendance students st (some image) cn "check_in" nowUtc
        localOffset env =
      ⟨.ok ⟨"check_in", nowUtc + localOffset,
          save_face_capture matched.id "check_in" (nowUtc + localOffset)⟩,
       ⟨st.nextLogId + 1, st.logs ++
         [⟨st.nextLogId, matched.id, cn, get_thai_time nowUtc, none,
           some (save_face_capture matched.id "check_in"
             (nowUtc + localOffset)), "checked_in"⟩]⟩,
       [.commit st.nextLogId, .notify (send_attendance_log env)]⟩ := by
  apply checkin_success_aux students st image cn nowUtc localOffset env enc
    matched hfaces henc hmatch
  intro r hr hm
  simp only [matchesActive, Bool.and_eq_true, beq_iff_eq] at hm
  obtain ⟨⟨⟨h1, h2⟩, h3⟩, h4⟩ := hm
  exact hexited r hr h1 h2 h3 h4

/-- The enter/exit pair of `demoOpenRow` after its exit was stamped. -/
def demoExitedRow : AttendanceLog :=
  ⟨1, 1, "Math", 25200, some 25210, some ⟨1, "check_out", 10⟩, "checked_out"⟩

/-- A store whose only session for the key was entered and exited today. -/
def demoStExited : SysState := ⟨2, [demoExitedRow]⟩

/-- Witness for the amended C1: with today's session already exited, the
same-day second check-in succeeds and appends a second row. -/
theorem enter_after_exit_creates_second_row_witness :
    api_check_attendance demoRoster demoStExited (some demoImage) "Math"
        "check_in" 20 0 demoEnv =
      ⟨.ok ⟨"check_in", 20 + 0,
          save_face_capture demoGood.id "check_in" (20 + 0)⟩,
       ⟨demoStExited.nextLogId + 1, demoStExited.logs ++
         [⟨demoStExited.nextLogId, demoGood.id, "Math", get_thai_time 20,
           none,
           some (save_face_capture demoGood.id "check_in" (20 + 0)),
           "checked_in"⟩]⟩,
       [.commit demoStExited.nextLogId,
        .notify (send_attendance_log demoEnv)]⟩ :=
  enter_after_exit_creates_second_row demoRoster demoStExited demoImage "Math"
    20 0 demoEnv demoU demoGood (by decide) (by decide) (by decide) (by decide)
